import Mathlib

/-!
Verification of the D-day PR labeler (`src/index.ts`).

The development shallowly embeds the label-transition rule, the batch
updater, the single-PR initializer, the Slack message formatter and the
event dispatcher, then settles the specification's claims about them.
Strings are handled through their character lists; JavaScript's
`parseInt` and number-to-string template interpolation are modelled
faithfully (whitespace skipping, sign, hex prefix, digit-prefix parsing,
NaN as `none`).
-/

namespace DdayLabeler

/-! ## JavaScript string/number primitives -/

/-- Model of JS `String.prototype.startsWith`: character-list prefix test. -/
def jsStartsWith (s p : String) : Bool :=
  p.data.isPrefixOf s.data

/-- Model of JS `String.prototype.slice(2)`: drop the first two characters. -/
def jsSlice2 (s : String) : String :=
  ⟨s.data.drop 2⟩

/-- Hexadecimal digit predicate used by `parseInt` in base-16 mode. -/
def isHexDigitCh (c : Char) : Bool :=
  c.isDigit || (decide ('a' ≤ c) && decide (c ≤ 'f')) || (decide ('A' ≤ c) && decide (c ≤ 'F'))

/-- Numeric value of a (hex) digit character. -/
def hexDigitVal (c : Char) : Nat :=
  if c.isDigit then c.toNat - 48
  else if decide ('a' ≤ c) && decide (c ≤ 'f') then c.toNat - 87
  else if decide ('A' ≤ c) && decide (c ≤ 'F') then c.toNat - 55
  else 0

/-- Longest digit run at the front of `cs`, valued left to right;
`none` when the run is empty (JS `NaN`). -/
def jsDigits (hexMode : Bool) (cs : List Char) : Option Nat :=
  let ds := cs.takeWhile (fun c => if hexMode then isHexDigitCh c else c.isDigit)
  if ds.isEmpty then none
  else some (ds.foldl (fun a c => a * (if hexMode then 16 else 10) + hexDigitVal c) 0)

/-- Magnitude part of JS `parseInt` (after whitespace and sign):
a `0x`/`0X` prefix switches to base 16, otherwise a decimal digit run. -/
def jsParseIntNat (cs : List Char) : Option Nat :=
  match cs with
  | c0 :: x :: rest =>
    if c0 = '0' ∧ (x = 'x' ∨ x = 'X') then jsDigits true rest
    else jsDigits false (c0 :: x :: rest)
  | _ => jsDigits false cs

/-- Sign handling of JS `parseInt` after whitespace skipping. -/
def jsParseIntList : List Char → Option Int
  | [] => none
  | c :: rest =>
    if c = '-' then (jsParseIntNat rest).map (fun n : Nat => -(n : Int))
    else if c = '+' then (jsParseIntNat rest).map (fun n : Nat => (n : Int))
    else (jsParseIntNat (c :: rest)).map (fun n : Nat => (n : Int))

/-- Model of JS `parseInt(s)`: skip leading whitespace, read an optional
sign, then the magnitude; `none` models `NaN`. -/
def jsParseInt (s : String) : Option Int :=
  jsParseIntList (s.data.dropWhile Char.isWhitespace)

/-- Decimal digit characters of `n` (most significant first), with fuel
for structural recursion; `acc` collects the suffix already produced. -/
def decDigitsAux : Nat → Nat → List Char → List Char
  | 0, _, acc => acc
  | fuel + 1, n, acc =>
    if n < 10 then Nat.digitChar n :: acc
    else decDigitsAux fuel (n / 10) (Nat.digitChar (n % 10) :: acc)

/-- Decimal digit characters of `n`, most significant first. -/
def decDigits (n : Nat) : List Char :=
  decDigitsAux (n + 1) n []

/-- Decimal string of a natural number (JS `${…}` on a non-negative int). -/
def decString (n : Nat) : String :=
  ⟨decDigits n⟩

/-- Model of JS template interpolation of an integer. -/
def jsIntToString (i : Int) : String :=
  if i < 0 then "-" ++ decString i.natAbs else decString i.natAbs

/-! ## Data model -/

/-- Snapshot of a pull request as returned by the issue-tracker list/get
endpoints: number, title, URL, optional author login, label names. -/
structure PRData where
  number : Nat
  title : String
  html_url : String
  userLogin : Option String
  labels : List String
deriving DecidableEq, Repr

/-- The summary passed to the Slack formatter (`user?.login ?? "Unknown"`
already applied by `summaryOf`). -/
structure PRSummary where
  number : Nat
  title : String
  html_url : String
  login : String
deriving DecidableEq, Repr

/-- A Slack block: either a `section` with markdown text or a `section`
with a list of markdown fields. -/
inductive Block where
  | textSection (text : String)
  | fieldsSection (fields : List String)
deriving DecidableEq, Repr

/-- A Slack webhook payload: summary text plus an ordered block list. -/
structure SlackMessage where
  text : String
  blocks : List Block
deriving DecidableEq, Repr

def summaryOf (pr : PRData) : PRSummary :=
  { number := pr.number
    title := pr.title
    html_url := pr.html_url
    login := pr.userLogin.getD "Unknown" }

/-- The warning block appended for `D-0` labels. -/
def warningBlock : Block :=
  Block.textSection ":warning: *This PR is due today!* :warning:"

/-- The message built by `sendSlackNotification` before posting. -/
def buildSlackMessage (pr : PRSummary) (label : String) : SlackMessage :=
  let baseBlocks : List Block :=
    [ Block.textSection ("*PR #" ++ toString pr.number ++ " has been updated*")
    , Block.fieldsSection
        [ "*Title:* " ++ pr.title
        , "*Label:* " ++ label
        , "*Author:* " ++ pr.login
        , "*Link:* <" ++ pr.html_url ++ "|View PR>" ] ]
  { text := "PR #" ++ toString pr.number ++ " \"" ++ pr.title ++ "\" has been labeled with " ++ label
    blocks := if label = "D-0" then baseBlocks ++ [warningBlock] else baseBlocks }

/-! ## Label transition -/

/-- `pr.labels.find(l => l.name.startsWith("D-"))`. -/
def findDdayLabel (labels : List String) : Option String :=
  labels.find? (fun l => jsStartsWith l "D-")

/-- `day = parseInt(label.slice(2)); day > 0 ? "D-" + (day - 1) : "D-0"`;
`none` (JS `NaN`) compares `false` under `>`, so it also yields `D-0`. -/
def stepLabel (cur : String) : String :=
  match jsParseInt (jsSlice2 cur) with
  | some day => if day > 0 then "D-" ++ jsIntToString (day - 1) else "D-0"
  | none => "D-0"

/-- The label-transition function of `updatePRLabels`: no D-label gives
`D-3`; otherwise `parseInt` the suffix after `D-` and decrement when
positive, else `D-0` (also on `NaN`). -/
def transition (labels : List String) : String :=
  match findDdayLabel labels with
  | none => "D-3"
  | some cur => stepLabel cur

/-- The effects `updatePRLabels` produces for a single pull request:
the label set written by `setLabels` (if any) and the Slack message
posted (if any). -/
structure PREffect where
  writtenLabels : Option (List String)
  slackPost : Option SlackMessage
deriving DecidableEq, Repr

/-- One iteration of the `updatePRLabels` loop body, as its effects. -/
def processPR (pr : PRData) : PREffect :=
  let currentLabel := findDdayLabel pr.labels
  let newLabel := transition pr.labels
  if some newLabel ≠ currentLabel then
    { writtenLabels :=
        some (newLabel :: (pr.labels.filter (fun l => !(jsStartsWith l "D-"))))
      slackPost := some (buildSlackMessage (summaryOf pr) newLabel) }
  else
    { writtenLabels := none, slackPost := none }

/-! ## Batch updater with failure model -/

/-- Observable outcome of one `updatePRLabels` invocation: the loop
iterations that completed, the successful `setLabels` writes, the
successful webhook posts, and the PR number at which an exception
aborted the batch (propagated to `run`'s catch, which calls
`core.setFailed`). -/
structure BatchResult where
  processed : List Nat
  writes : List (Nat × List String)
  posts : List (Nat × SlackMessage)
  failedAt : Option Nat
deriving DecidableEq, Repr

/-- The `updatePRLabels` loop. `writeFails n` (resp. `postFails n`)
models the `setLabels` (resp. `axios.post`) call for PR `n` throwing;
the loop body has no try/catch, so a throw ends the loop and surfaces
to `run`'s catch. -/
def updatePRLabels (writeFails postFails : Nat → Bool) : List PRData → BatchResult
  | [] => { processed := [], writes := [], posts := [], failedAt := none }
  | pr :: rest =>
    match (processPR pr).writtenLabels, (processPR pr).slackPost with
    | some ls, some msg =>
      if writeFails pr.number then
        { processed := [], writes := [], posts := [], failedAt := some pr.number }
      else if postFails pr.number then
        { processed := [], writes := [(pr.number, ls)], posts := [], failedAt := some pr.number }
      else
        let r := updatePRLabels writeFails postFails rest
        { processed := pr.number :: r.processed
          writes := (pr.number, ls) :: r.writes
          posts := (pr.number, msg) :: r.posts
          failedAt := r.failedAt }
    | _, _ =>
      let r := updatePRLabels writeFails postFails rest
      { processed := pr.number :: r.processed
        writes := r.writes
        posts := r.posts
        failedAt := r.failedAt }

/-! ## Single-PR initializer -/

/-- A call to the issue tracker or the webhook, in the order issued. -/
inductive ApiCall where
  | addLabels (issue : Nat) (labels : List String)
  | getPull (pull : Nat)
  | post (msg : SlackMessage)
deriving DecidableEq, Repr

/-- Models the issue-tracker `addLabels` endpoint (spec section 6: additive,
existing labels are kept and the new ones are unioned in). -/
def addLabelsApi (current toAdd : List String) : List String :=
  current ++ toAdd.filter (fun l => decide (¬ l ∈ current))

def isPost : ApiCall → Bool
  | ApiCall.post _ => true
  | _ => false

/-- The calls `addDdayLabel` issues, in order; `fetched` is the response
of the `pulls.get` request it makes after labeling. -/
def addDdayLabel (prNumber : Nat) (fetched : PRData) : List ApiCall :=
  [ ApiCall.addLabels prNumber ["D-3"]
  , ApiCall.getPull prNumber
  , ApiCall.post (buildSlackMessage (summaryOf fetched) "D-3") ]

/-! ## Entry dispatcher -/

/-- What `run` does after reading its inputs. -/
inductive Action where
  | batchUpdate
  | initLabel (prNumber : Nat)
  | noop
deriving DecidableEq, Repr

/-- The event dispatch in `run`: `schedule` and `workflow_dispatch` go
to `updatePRLabels`, `pull_request` to `addDdayLabel` with the payload's
PR number, anything else falls through the if/else chain. -/
def dispatchEvent (eventName : String) (payloadPRNumber : Nat) : Action :=
  if eventName = "schedule" ∨ eventName = "workflow_dispatch" then Action.batchUpdate
  else if eventName = "pull_request" then Action.initLabel payloadPRNumber
  else Action.noop

/-! ## Decimal printing and parsing round-trip -/

theorem digitChar_isDigit {n : Nat} (h : n < 10) : (Nat.digitChar n).isDigit = true := by
  interval_cases n <;> decide

theorem hexDigitVal_digitChar {n : Nat} (h : n < 10) : hexDigitVal (Nat.digitChar n) = n := by
  interval_cases n <;> decide

theorem decDigitsAux_spec (fuel : Nat) : ∀ (n : Nat) (acc : List Char), n < fuel →
    ∃ ds : List Char, decDigitsAux fuel n acc = ds ++ acc ∧ ds ≠ [] ∧
      (∀ c ∈ ds, c.isDigit = true) ∧
      (∀ a : Nat, ds.foldl (fun x c => x * 10 + hexDigitVal c) a = a * 10 ^ ds.length + n) := by
  induction fuel with
  | zero => exact fun n acc h => absurd h (Nat.not_lt_zero n)
  | succ fuel ih =>
    intro n acc hn
    by_cases h10 : n < 10
    · refine ⟨[Nat.digitChar n], by simp [decDigitsAux, h10], by simp, ?_, ?_⟩
      · intro c hc
        rw [List.mem_singleton] at hc
        rw [hc]
        exact digitChar_isDigit h10
      · intro a
        simp [List.foldl, hexDigitVal_digitChar h10]
    · have hdiv : n / 10 < fuel := by
        have h1 : n / 10 < n := Nat.div_lt_self (by omega) (by omega)
        omega
      obtain ⟨ds, hds, hne, hdig, hval⟩ := ih (n / 10) (Nat.digitChar (n % 10) :: acc) hdiv
      refine ⟨ds ++ [Nat.digitChar (n % 10)], ?_, by simp, ?_, ?_⟩
      · simp only [decDigitsAux, if_neg h10]
        rw [hds, List.append_assoc]
        rfl
      · intro c hc
        rcases List.mem_append.mp hc with h | h
        · exact hdig c h
        · rw [List.mem_singleton] at h
          rw [h]
          exact digitChar_isDigit (Nat.mod_lt n (by omega))
      · intro a
        rw [List.foldl_append, hval a]
        simp only [List.foldl, hexDigitVal_digitChar (Nat.mod_lt n (by omega)),
          List.length_append, List.length_singleton]
        calc (a * 10 ^ ds.length + n / 10) * 10 + n % 10
            = a * (10 ^ ds.length * 10) + (10 * (n / 10) + n % 10) := by ring
          _ = a * 10 ^ (ds.length + 1) + n := by rw [Nat.div_add_mod, pow_succ]

theorem decDigits_spec (n : Nat) : decDigits n ≠ [] ∧ (∀ c ∈ decDigits n, c.isDigit = true) ∧
    (decDigits n).foldl (fun x c => x * 10 + hexDigitVal c) 0 = n := by
  obtain ⟨ds, hds, hne, hdig, hval⟩ := decDigitsAux_spec (n + 1) n [] (Nat.lt_succ_self n)
  rw [List.append_nil] at hds
  rw [decDigits, hds]
  exact ⟨hne, hdig, by rw [hval 0]; ring⟩

theorem isDigit_not_whitespace {c : Char} (h : c.isDigit = true) : c.isWhitespace = false := by
  by_contra hw
  rw [Bool.not_eq_false] at hw
  simp only [Char.isWhitespace, Bool.or_eq_true, decide_eq_true_eq] at hw
  rcases hw with ((rfl | rfl) | rfl) | rfl <;> exact absurd h (by decide)

theorem isDigit_ne {c c₀ : Char} (h : c.isDigit = true) (h₀ : c₀.isDigit = false) : c ≠ c₀ := by
  rintro rfl
  rw [h] at h₀
  exact Bool.noConfusion h₀

theorem digits_dropWhile {cs : List Char} (h : ∀ c ∈ cs, c.isDigit = true) :
    cs.dropWhile Char.isWhitespace = cs := by
  cases cs with
  | nil => rfl
  | cons c rest =>
    rw [List.dropWhile_cons, if_neg]
    rw [isDigit_not_whitespace (h c (List.mem_cons_self c rest))]
    exact Bool.false_ne_true

theorem jsDigits_dec {cs : List Char} (hne : cs ≠ []) (h : ∀ c ∈ cs, c.isDigit = true) :
    jsDigits false cs = some (cs.foldl (fun a c => a * 10 + hexDigitVal c) 0) := by
  have hrfl : jsDigits false cs =
      (if (cs.takeWhile (fun c => c.isDigit)).isEmpty then none
       else some ((cs.takeWhile (fun c => c.isDigit)).foldl
         (fun a c => a * 10 + hexDigitVal c) 0)) := rfl
  have htake : cs.takeWhile (fun c => c.isDigit) = cs :=
    List.takeWhile_eq_self_iff.mpr h
  rw [hrfl, htake, if_neg]
  simp [List.isEmpty_iff, hne]

theorem jsParseIntNat_dec {cs : List Char} (hne : cs ≠ []) (h : ∀ c ∈ cs, c.isDigit = true) :
    jsParseIntNat cs = some (cs.foldl (fun a c => a * 10 + hexDigitVal c) 0) := by
  match cs with
  | [] => exact absurd rfl hne
  | [c] => rw [show jsParseIntNat [c] = jsDigits false [c] from rfl, jsDigits_dec hne h]
  | c₀ :: x :: rest =>
    have hx : x.isDigit = true := h x (by simp)
    rw [show jsParseIntNat (c₀ :: x :: rest) =
        (if c₀ = '0' ∧ (x = 'x' ∨ x = 'X') then jsDigits true rest
         else jsDigits false (c₀ :: x :: rest)) from rfl]
    rw [if_neg, jsDigits_dec hne h]
    rintro ⟨-, rfl | rfl⟩ <;> exact absurd hx (by decide)

theorem jsParseInt_decString (n : Nat) : jsParseInt (decString n) = some (n : Int) := by
  obtain ⟨hne, hdig, hval⟩ := decDigits_spec n
  have hdata : (decString n).data = decDigits n := rfl
  obtain ⟨c, cs', hcons⟩ : ∃ c cs', decDigits n = c :: cs' := by
    cases hd : decDigits n with
    | nil => exact absurd hd hne
    | cons c cs' => exact ⟨c, cs', rfl⟩
  have hc : c.isDigit = true := hdig c (by rw [hcons]; exact List.mem_cons_self c cs')
  rw [jsParseInt, hdata, digits_dropWhile hdig, hcons]
  simp only [jsParseIntList]
  rw [if_neg (isDigit_ne hc (by decide)), if_neg (isDigit_ne hc (by decide))]
  rw [← hcons, jsParseIntNat_dec hne hdig, hval]
  rfl

theorem jsParseInt_jsIntToString (d : Int) : jsParseInt (jsIntToString d) = some d := by
  rcases lt_or_ge d 0 with hneg | hpos
  · rw [jsIntToString, if_pos hneg]
    obtain ⟨hne, hdig, hval⟩ := decDigits_spec d.natAbs
    have hdata : ("-" ++ decString d.natAbs).data = '-' :: decDigits d.natAbs := by
      rw [String.data_append]
      rfl
    rw [jsParseInt, hdata, List.dropWhile_cons, if_neg (by decide)]
    simp only [jsParseIntList, if_true]
    rw [jsParseIntNat_dec hne hdig, hval]
    rw [Option.map_some', Int.ofNat_natAbs_of_nonpos (le_of_lt hneg), neg_neg]
  · rw [jsIntToString, if_neg (not_lt.mpr hpos), jsParseInt_decString]
    rw [Int.natAbs_of_nonneg hpos]

/-! ## Structural lemmas about the transition and the per-PR effects -/

theorem jsSlice2_append (s : String) : jsSlice2 ("D-" ++ s) = s := by
  obtain ⟨data⟩ := s
  rfl

theorem startsWith_Dday (s : String) : jsStartsWith ("D-" ++ s) "D-" = true := by
  have e : ("D-" : String).data = ['D', '-'] := rfl
  rw [jsStartsWith, String.data_append, e]
  simp [List.isPrefixOf]

theorem transition_of_find {labels : List String} {cur : String}
    (h : findDdayLabel labels = some cur) : transition labels = stepLabel cur := by
  rw [transition, h]

theorem transition_of_none {labels : List String}
    (h : findDdayLabel labels = none) : transition labels = "D-3" := by
  rw [transition, h]

theorem transition_startsWith (labels : List String) :
    jsStartsWith (transition labels) "D-" = true := by
  rw [transition]
  split
  · rfl
  · rw [stepLabel]
    split
    · split
      · exact startsWith_Dday _
      · rfl
    · rfl

theorem findDdayLabel_cons_of_Dday {l : String} (rest : List String)
    (h : jsStartsWith l "D-" = true) : findDdayLabel (l :: rest) = some l := by
  simp [findDdayLabel, List.find?_cons, h]

theorem processPR_eq (pr : PRData) :
    processPR pr =
      if some (transition pr.labels) ≠ findDdayLabel pr.labels then
        { writtenLabels := some (transition pr.labels ::
            (pr.labels.filter (fun l => !(jsStartsWith l "D-"))))
          slackPost := some (buildSlackMessage (summaryOf pr) (transition pr.labels)) }
      else { writtenLabels := none, slackPost := none } := rfl

theorem processPR_written {pr : PRData}
    (hne : some (transition pr.labels) ≠ findDdayLabel pr.labels) :
    (processPR pr).writtenLabels =
      some (transition pr.labels :: (pr.labels.filter (fun l => !(jsStartsWith l "D-"))))
    ∧ (processPR pr).slackPost =
      some (buildSlackMessage (summaryOf pr) (transition pr.labels)) := by
  rw [processPR_eq, if_pos hne]
  exact ⟨rfl, rfl⟩

theorem processPR_noop {pr : PRData}
    (heq : some (transition pr.labels) = findDdayLabel pr.labels) :
    processPR pr = { writtenLabels := none, slackPost := none } := by
  rw [processPR_eq, if_neg (not_not_intro heq)]

/-! ## Claims -/

/-- C1: for every pull request processed by the batch updater, the next
label is determined by the current label set: no `D-` label gives `D-3`;
a first `D-` label `D-<d>` with integer `d ≥ 1` gives `D-<d-1>`; `d ≤ 0`
gives `D-0`. -/
theorem C1_transition_rule (labels : List String) :
    (findDdayLabel labels = none → transition labels = "D-3")
    ∧ (∀ d : Int, 1 ≤ d → findDdayLabel labels = some ("D-" ++ jsIntToString d) →
        transition labels = "D-" ++ jsIntToString (d - 1))
    ∧ (∀ d : Int, d ≤ 0 → findDdayLabel labels = some ("D-" ++ jsIntToString d) →
        transition labels = "D-0") := by
  refine ⟨transition_of_none, ?_, ?_⟩
  · intro d hd h
    rw [transition_of_find h, stepLabel, jsSlice2_append, jsParseInt_jsIntToString]
    show (if d > 0 then "D-" ++ jsIntToString (d - 1) else "D-0") =
      "D-" ++ jsIntToString (d - 1)
    rw [if_pos (by omega)]
  · intro d hd h
    rw [transition_of_find h, stepLabel, jsSlice2_append, jsParseInt_jsIntToString]
    show (if d > 0 then "D-" ++ jsIntToString (d - 1) else "D-0") = "D-0"
    rw [if_neg (by omega)]

theorem C1_transition_rule_witness :
    (findDdayLabel ["bug", "D-7"] = some ("D-" ++ jsIntToString 7)
      ∧ transition ["bug", "D-7"] = "D-" ++ jsIntToString (7 - 1))
    ∧ (findDdayLabel ["D--2"] = some ("D-" ++ jsIntToString (-2))
      ∧ transition ["D--2"] = "D-0")
    ∧ (findDdayLabel ["enhancement"] = none ∧ transition ["enhancement"] = "D-3") :=
  ⟨⟨by decide, (C1_transition_rule ["bug", "D-7"]).2.1 7 (by decide) (by decide)⟩,
   ⟨by decide, (C1_transition_rule ["D--2"]).2.2 (-2) (by decide) (by decide)⟩,
   ⟨by decide, (C1_transition_rule ["enhancement"]).1 (by decide)⟩⟩

/-- C2: a notification is posted if and only if the computed next label
differs from the current D-label (or none existed); posting happens
exactly when a label write happens, and on equality the iteration is a
no-op. -/
theorem C2_notify_iff_change (pr : PRData) :
    ((processPR pr).slackPost.isSome = true ↔
      some (transition pr.labels) ≠ findDdayLabel pr.labels)
    ∧ (processPR pr).slackPost.isSome = (processPR pr).writtenLabels.isSome
    ∧ (some (transition pr.labels) = findDdayLabel pr.labels →
      processPR pr = { writtenLabels := none, slackPost := none }) := by
  rw [processPR_eq]
  split <;> simp_all

theorem C2_notify_iff_change_witness :
    processPR ⟨11, "t", "u", some "a", ["D-0", "bug"]⟩ =
      { writtenLabels := none, slackPost := none } :=
  (C2_notify_iff_change ⟨11, "t", "u", some "a", ["D-0", "bug"]⟩).2.2 (by decide)

/-- C3: every label-replace write preserves the non-D labels exactly:
a label not starting with `D-` is in the written set iff it was in the
set observed at read time. -/
theorem C3_non_dday_preserved (pr : PRData) (L : List String)
    (h : (processPR pr).writtenLabels = some L) :
    ∀ l : String, l ∈ L.filter (fun x => !(jsStartsWith x "D-")) ↔
      l ∈ pr.labels.filter (fun x => !(jsStartsWith x "D-")) := by
  rw [processPR_eq] at h
  by_cases hc : some (transition pr.labels) ≠ findDdayLabel pr.labels
  · rw [if_pos hc] at h
    have hL : L = transition pr.labels ::
        (pr.labels.filter (fun x => !(jsStartsWith x "D-"))) := by
      simpa using h.symm
    subst hL
    intro l
    simp [List.filter_cons, transition_startsWith, List.filter_filter]
  · rw [if_neg hc] at h
    exact absurd h (by simp)

theorem C3_non_dday_preserved_witness :
    (processPR ⟨3, "t", "u", some "a", ["D-2", "bug"]⟩).writtenLabels =
      some ["D-1", "bug"]
    ∧ ("bug" ∈ (["D-1", "bug"].filter (fun x => !(jsStartsWith x "D-"))) ↔
      "bug" ∈ (["D-2", "bug"].filter (fun x => !(jsStartsWith x "D-")))) :=
  ⟨by decide, C3_non_dday_preserved ⟨3, "t", "u", some "a", ["D-2", "bug"]⟩
    ["D-1", "bug"] (by decide) "bug"⟩

/-- C9: every batch label-replace writes exactly one label starting with
`D-`, namely the computed next label; all previously present D-labels
are gone. -/
theorem C9_one_dday_written (pr : PRData) (L : List String)
    (h : (processPR pr).writtenLabels = some L) :
    L.filter (fun x => jsStartsWith x "D-") = [transition pr.labels]
    ∧ (L.filter (fun x => jsStartsWith x "D-")).length = 1 := by
  rw [processPR_eq] at h
  by_cases hc : some (transition pr.labels) ≠ findDdayLabel pr.labels
  · rw [if_pos hc] at h
    have hL : L = transition pr.labels ::
        (pr.labels.filter (fun x => !(jsStartsWith x "D-"))) := by
      simpa using h.symm
    subst hL
    constructor <;>
      simp [List.filter_cons, transition_startsWith, List.filter_filter]
  · rw [if_neg hc] at h
    exact absurd h (by simp)

theorem C9_one_dday_written_witness :
    (processPR ⟨4, "t", "u", some "a", ["D-9", "D-1", "bug"]⟩).writtenLabels =
      some ["D-8", "bug"]
    ∧ ["D-8", "bug"].filter (fun x => jsStartsWith x "D-") =
      [transition ["D-9", "D-1", "bug"]] :=
  ⟨by decide, (C9_one_dday_written ⟨4, "t", "u", some "a", ["D-9", "D-1", "bug"]⟩
    ["D-8", "bug"] (by decide)).1⟩

/-- C10: a first D-label whose suffix does not parse as an integer
(JS `parseInt` gives `NaN`) makes the batch updater compute `D-0`,
and since the malformed label is not `D-0` it writes the label set and
posts a notification — no reset to `D-3`, no skip. -/
theorem C10_malformed_label (pr : PRData) (cur : String)
    (hf : findDdayLabel pr.labels = some cur)
    (hp : jsParseInt (jsSlice2 cur) = none) :
    transition pr.labels = "D-0"
    ∧ (processPR pr).writtenLabels =
        some ("D-0" :: (pr.labels.filter (fun l => !(jsStartsWith l "D-"))))
    ∧ (processPR pr).slackPost = some (buildSlackMessage (summaryOf pr) "D-0") := by
  have ht : transition pr.labels = "D-0" := by
    rw [transition_of_find hf, stepLabel, hp]
  have hne : cur ≠ "D-0" := by
    rintro rfl
    exact absurd hp (by decide)
  have hcne : some (transition pr.labels) ≠ findDdayLabel pr.labels := by
    rw [ht, hf]
    intro hcontra
    exact hne (Option.some.inj hcontra).symm
  obtain ⟨hw, hpost⟩ := processPR_written hcne
  rw [ht] at hw hpost
  exact ⟨ht, hw, hpost⟩

theorem C10_malformed_label_witness :
    findDdayLabel ["D-urgent", "bug"] = some "D-urgent"
    ∧ jsParseInt (jsSlice2 "D-urgent") = none
    ∧ transition ["D-urgent", "bug"] = "D-0"
    ∧ (processPR ⟨7, "t", "u", some "a", ["D-urgent", "bug"]⟩).writtenLabels =
        some ("D-0" :: (["D-urgent", "bug"].filter (fun l => !(jsStartsWith l "D-")))) :=
  ⟨by decide, by decide,
   (C10_malformed_label ⟨7, "t", "u", some "a", ["D-urgent", "bug"]⟩ "D-urgent"
     (by decide) (by decide)).1,
   (C10_malformed_label ⟨7, "t", "u", some "a", ["D-urgent", "bug"]⟩ "D-urgent"
     (by decide) (by decide)).2.1⟩

/-- C4: a PR currently at `D-0` is a fixed point of the batch updater:
no write, no notification. From `D-3`, `D-2`, `D-1` or no D-label the
run writes a changed label, and an immediate second run changes it again
except when the first run produced `D-0` (from `D-1`), where the second
run is a true no-op. -/
theorem C4_fixed_point_only_D0 (pr : PRData) :
    (findDdayLabel pr.labels = some "D-0" →
      processPR pr = { writtenLabels := none, slackPost := none })
    ∧ (findDdayLabel pr.labels = none →
      transition pr.labels = "D-3" ∧ (processPR pr).writtenLabels.isSome = true ∧
      ∀ L, (processPR pr).writtenLabels = some L →
        findDdayLabel L = some "D-3" ∧ transition L = "D-2")
    ∧ (findDdayLabel pr.labels = some "D-3" →
      transition pr.labels = "D-2" ∧ (processPR pr).writtenLabels.isSome = true ∧
      ∀ L, (processPR pr).writtenLabels = some L →
        findDdayLabel L = some "D-2" ∧ transition L = "D-1")
    ∧ (findDdayLabel pr.labels = some "D-2" →
      transition pr.labels = "D-1" ∧ (processPR pr).writtenLabels.isSome = true ∧
      ∀ L, (processPR pr).writtenLabels = some L →
        findDdayLabel L = some "D-1" ∧ transition L = "D-0")
    ∧ (findDdayLabel pr.labels = some "D-1" →
      transition pr.labels = "D-0" ∧ (processPR pr).writtenLabels.isSome = true ∧
      ∀ L, (processPR pr).writtenLabels = some L →
        processPR { pr with labels := L } =
          { writtenLabels := none, slackPost := none }) := by
  refine ⟨?_, ?_, ?_, ?_, ?_⟩
  · intro h
    apply processPR_noop
    rw [transition_of_find h, h]
    decide
  · intro h
    have ht : transition pr.labels = "D-3" := transition_of_none h
    have hne : some (transition pr.labels) ≠ findDdayLabel pr.labels := by
      rw [ht, h]
      simp
    obtain ⟨hw, -⟩ := processPR_written hne
    refine ⟨ht, by rw [hw]; rfl, ?_⟩
    intro L hL
    rw [hw] at hL
    obtain rfl := Option.some.inj hL
    rw [ht]
    have hfind := findDdayLabel_cons_of_Dday
      (pr.labels.filter (fun l => !(jsStartsWith l "D-"))) (show jsStartsWith "D-3" "D-" = true by decide)
    refine ⟨hfind, ?_⟩
    rw [transition_of_find hfind]
    decide
  · intro h
    have ht : transition pr.labels = "D-2" := by
      rw [transition_of_find h]
      decide
    have hne : some (transition pr.labels) ≠ findDdayLabel pr.labels := by
      rw [ht, h]
      decide
    obtain ⟨hw, -⟩ := processPR_written hne
    refine ⟨ht, by rw [hw]; rfl, ?_⟩
    intro L hL
    rw [hw] at hL
    obtain rfl := Option.some.inj hL
    rw [ht]
    have hfind := findDdayLabel_cons_of_Dday
      (pr.labels.filter (fun l => !(jsStartsWith l "D-"))) (show jsStartsWith "D-2" "D-" = true by decide)
    refine ⟨hfind, ?_⟩
    rw [transition_of_find hfind]
    decide
  · intro h
    have ht : transition pr.labels = "D-1" := by
      rw [transition_of_find h]
      decide
    have hne : some (transition pr.labels) ≠ findDdayLabel pr.labels := by
      rw [ht, h]
      decide
    obtain ⟨hw, -⟩ := processPR_written hne
    refine ⟨ht, by rw [hw]; rfl, ?_⟩
    intro L hL
    rw [hw] at hL
    obtain rfl := Option.some.inj hL
    rw [ht]
    have hfind := findDdayLabel_cons_of_Dday
      (pr.labels.filter (fun l => !(jsStartsWith l "D-"))) (show jsStartsWith "D-1" "D-" = true by decide)
    refine ⟨hfind, ?_⟩
    rw [transition_of_find hfind]
    decide
  · intro h
    have ht : transition pr.labels = "D-0" := by
      rw [transition_of_find h]
      decide
    have hne : some (transition pr.labels) ≠ findDdayLabel pr.labels := by
      rw [ht, h]
      decide
    obtain ⟨hw, -⟩ := processPR_written hne
    refine ⟨ht, by rw [hw]; rfl, ?_⟩
    intro L hL
    rw [hw] at hL
    obtain rfl := Option.some.inj hL
    apply processPR_noop
    rw [ht]
    have hfind := findDdayLabel_cons_of_Dday
      (pr.labels.filter (fun l => !(jsStartsWith l "D-"))) (show jsStartsWith "D-0" "D-" = true by decide)
    show some (transition ("D-0" :: (pr.labels.filter (fun l => !(jsStartsWith l "D-"))))) =
      findDdayLabel ("D-0" :: (pr.labels.filter (fun l => !(jsStartsWith l "D-"))))
    rw [transition_of_find hfind, hfind]
    decide

theorem C4_fixed_point_only_D0_witness :
    processPR ⟨21, "t", "u", some "a", ["D-0", "bug"]⟩ =
      { writtenLabels := none, slackPost := none }
    ∧ transition ["D-1", "bug"] = "D-0" :=
  ⟨(C4_fixed_point_only_D0 ⟨21, "t", "u", some "a", ["D-0", "bug"]⟩).1 (by decide),
   ((C4_fixed_point_only_D0 ⟨22, "t", "u", some "a", ["D-1", "bug"]⟩).2.2.2.2
     (by decide)).1⟩

theorem warning_ne_header (s t : String) :
    warningBlock ≠ Block.textSection (("*PR #" ++ s) ++ t) := by
  intro h
  have h2 : (":warning: *This PR is due today!* :warning:" : String) = ("*PR #" ++ s) ++ t :=
    Block.textSection.inj h
  have e1 : ((":warning: *This PR is due today!* :warning:" : String).data).head? =
    some ':' := rfl
  have e2 : ((("*PR #" ++ s) ++ t).data).head? = some '*' := by
    rw [String.data_append, String.data_append]
    rfl
  rw [h2, e2] at e1
  exact absurd e1 (by decide)

/-- C5: the Slack payload contains the due-today warning block iff the
label is `D-0`; otherwise it consists exactly of the summary text, the
header block and the Title/Label/Author/Link field block. -/
theorem C5_warning_iff_D0 (pr : PRSummary) (label : String) :
    (warningBlock ∈ (buildSlackMessage pr label).blocks ↔ label = "D-0")
    ∧ (buildSlackMessage pr label).text =
      "PR #" ++ toString pr.number ++ " \"" ++ pr.title ++ "\" has been labeled with " ++ label
    ∧ (label = "D-0" → (buildSlackMessage pr label).blocks =
        [ Block.textSection ("*PR #" ++ toString pr.number ++ " has been updated*")
        , Block.fieldsSection
            [ "*Title:* " ++ pr.title, "*Label:* " ++ label
            , "*Author:* " ++ pr.login, "*Link:* <" ++ pr.html_url ++ "|View PR>" ]
        , warningBlock ])
    ∧ (label ≠ "D-0" → (buildSlackMessage pr label).blocks =
        [ Block.textSection ("*PR #" ++ toString pr.number ++ " has been updated*")
        , Block.fieldsSection
            [ "*Title:* " ++ pr.title, "*Label:* " ++ label
            , "*Author:* " ++ pr.login, "*Link:* <" ++ pr.html_url ++ "|View PR>" ] ]) := by
  by_cases hl : label = "D-0"
  · subst hl
    refine ⟨?_, rfl, fun _ => rfl, fun hn => absurd rfl hn⟩
    simp [buildSlackMessage]
  · have hb : (buildSlackMessage pr label).blocks =
        [ Block.textSection ("*PR #" ++ toString pr.number ++ " has been updated*")
        , Block.fieldsSection
            [ "*Title:* " ++ pr.title, "*Label:* " ++ label
            , "*Author:* " ++ pr.login, "*Link:* <" ++ pr.html_url ++ "|View PR>" ] ] := by
      simp [buildSlackMessage, hl]
    refine ⟨?_, rfl, fun he => absurd he hl, fun _ => hb⟩
    rw [hb]
    simp only [List.mem_cons, List.not_mem_nil, or_false]
    constructor
    · rintro (h | h)
      · exact absurd h (warning_ne_header _ _)
      · exact absurd h (by rw [warningBlock]; exact Block.noConfusion)
    · intro h
      exact absurd h hl

theorem C5_warning_iff_D0_witness :
    (warningBlock ∈ (buildSlackMessage ⟨8, "t", "u", "a"⟩ "D-0").blocks ↔ "D-0" = "D-0")
    ∧ ((buildSlackMessage ⟨8, "t", "u", "a"⟩ "D-1").blocks =
        [ Block.textSection ("*PR #" ++ toString (8 : Nat) ++ " has been updated*")
        , Block.fieldsSection
            [ "*Title:* " ++ "t", "*Label:* " ++ "D-1"
            , "*Author:* " ++ "a", "*Link:* <" ++ "u" ++ "|View PR>" ] ]) :=
  ⟨(C5_warning_iff_D0 ⟨8, "t", "u", "a"⟩ "D-0").1,
   (C5_warning_iff_D0 ⟨8, "t", "u", "a"⟩ "D-1").2.2.2 (by decide)⟩

/-- C6: the dispatcher runs the batch updater exactly on `schedule` and
`workflow_dispatch`, runs the single-PR initializer with the payload's
PR number exactly on `pull_request`, and does nothing (without error)
on every other event name. -/
theorem C6_event_dispatch (n : Nat) :
    dispatchEvent "schedule" n = Action.batchUpdate
    ∧ dispatchEvent "workflow_dispatch" n = Action.batchUpdate
    ∧ dispatchEvent "pull_request" n = Action.initLabel n
    ∧ ∀ e : String, e ≠ "schedule" → e ≠ "workflow_dispatch" → e ≠ "pull_request" →
      dispatchEvent e n = Action.noop := by
  refine ⟨rfl, rfl, rfl, ?_⟩
  intro e h1 h2 h3
  rw [dispatchEvent, if_neg (fun hor => Or.elim hor h1 h2), if_neg h3]

theorem C6_event_dispatch_witness :
    dispatchEvent "push" 9 = Action.noop :=
  (C6_event_dispatch 9).2.2.2 "push" (by decide) (by decide) (by decide)

/-- C7 (amended): the batch loop has no per-PR error handling — a label
write or notification failure for one PR aborts the run at that PR;
later PRs in the batch are not processed and the failure surfaces. -/
theorem C7_failure_aborts_batch (writeFails postFails : Nat → Bool) (pr : PRData)
    (rest : List PRData) (ls : List String) (msg : SlackMessage)
    (hw : (processPR pr).writtenLabels = some ls)
    (hm : (processPR pr).slackPost = some msg) :
    (writeFails pr.number = true →
      updatePRLabels writeFails postFails (pr :: rest) =
        { processed := [], writes := [], posts := [], failedAt := some pr.number })
    ∧ (writeFails pr.number = false → postFails pr.number = true →
      updatePRLabels writeFails postFails (pr :: rest) =
        { processed := [], writes := [(pr.number, ls)], posts := []
          failedAt := some pr.number }) := by
  constructor
  · intro h
    simp [updatePRLabels, hw, hm, h]
  · intro h hp
    simp [updatePRLabels, hw, hm, h, hp]

theorem C7_failure_aborts_batch_witness :
    updatePRLabels (fun _ => true) (fun _ => false) [⟨3, "c", "uc", none, ["D-1"]⟩] =
      { processed := [], writes := [], posts := [], failedAt := some 3 } :=
  (C7_failure_aborts_batch (fun _ => true) (fun _ => false) ⟨3, "c", "uc", none, ["D-1"]⟩
    [] ["D-0"] (buildSlackMessage ⟨3, "c", "uc", "Unknown"⟩ "D-0")
    (by decide) (by decide)).1 rfl

/-- C7 (counterexample to the claim as stated): with two PRs both
needing an update and the label write failing for the first, the second
PR is not processed at all — no write for PR 2 appears, although a
failure-free run writes it. -/
theorem C7_counterexample :
    updatePRLabels (fun n => n == 1) (fun _ => false)
        [⟨1, "a", "ua", some "x", ["D-2"]⟩, ⟨2, "b", "ub", some "y", ["D-2"]⟩] =
      { processed := [], writes := [], posts := [], failedAt := some 1 }
    ∧ (processPR ⟨2, "b", "ub", some "y", ["D-2"]⟩).writtenLabels = some ["D-1"]
    ∧ (updatePRLabels (fun _ => false) (fun _ => false)
        [⟨1, "a", "ua", some "x", ["D-2"]⟩, ⟨2, "b", "ub", some "y", ["D-2"]⟩]).writes =
      [(1, ["D-1"]), (2, ["D-1"])] := by
  refine ⟨?_, by decide, ?_⟩ <;> decide

/-- C8: the single-PR initializer adds `D-3` additively (the add-labels
endpoint keeps every existing label), fetches the PR summary after the
labeling call, and issues exactly one notification, built with label
`D-3`. -/
theorem C8_initializer (n : Nat) (fetched : PRData) (current : List String) :
    addDdayLabel n fetched =
      [ ApiCall.addLabels n ["D-3"]
      , ApiCall.getPull n
      , ApiCall.post (buildSlackMessage (summaryOf fetched) "D-3") ]
    ∧ (∀ l ∈ current, l ∈ addLabelsApi current ["D-3"])
    ∧ "D-3" ∈ addLabelsApi current ["D-3"]
    ∧ ((addDdayLabel n fetched).filter isPost).length = 1 := by
  refine ⟨rfl, fun l hl => List.mem_append_left _ hl, ?_, rfl⟩
  by_cases hmem : "D-3" ∈ current
  · exact List.mem_append_left _ hmem
  · apply List.mem_append_right
    simp [hmem]

theorem C8_initializer_witness :
    ("bug" ∈ addLabelsApi ["bug"] ["D-3"])
    ∧ "D-3" ∈ addLabelsApi ["bug"] ["D-3"]
    ∧ ((addDdayLabel 42 ⟨42, "t", "u", some "a", ["D-3", "bug"]⟩).filter isPost).length = 1 :=
  ⟨(C8_initializer 42 ⟨42, "t", "u", some "a", ["D-3", "bug"]⟩ ["bug"]).2.1 "bug" (by decide),
   (C8_initializer 42 ⟨42, "t", "u", some "a", ["D-3", "bug"]⟩ ["bug"]).2.2.1,
   (C8_initializer 42 ⟨42, "t", "u", some "a", ["D-3", "bug"]⟩ ["bug"]).2.2.2⟩

end DdayLabeler
